import Mathlib

/-!
# Verification of `balrogscript/script.py`

A shallow embedding of the core logic of `balrogscript`: the per-locale
submission builder (`create_locale_submitter` / `submit_locale`), the
scheduling flow (`schedule`), the top-level submission flow
(`submit_toplevel`, with its partial-version parsing), and the config
resolution (`update_config`).

Remote calls are modelled as a trace: each flow returns the list of calls
it attempted, in order, together with an optional error.  The outcome of
each retry-wrapped remote call (whether it eventually succeeds within the
retry bound, or exhausts its retries and raises) is supplied by an oracle
`ok : Nat -> Bool` indexed by the position of the call in the issue order.
Python dictionaries become association lists with insert-or-replace
semantics; Python string operations are given faithful counterparts
(`str.capitalize` lowercases the tail, `str.strip` trims both ends,
`str.split(sep)` is `pySplit`, which splits on the leftmost
non-overlapping occurrences of the separator substring).
-/

set_option autoImplicit false

namespace Balrogscript

instance {ε α : Type} [DecidableEq ε] [DecidableEq α] : DecidableEq (Except ε α) :=
  fun x y =>
    match x, y with
    | .ok a, .ok b =>
        if h : a = b then .isTrue (by simp [h]) else .isFalse (by simp [h])
    | .error a, .error b =>
        if h : a = b then .isTrue (by simp [h]) else .isFalse (by simp [h])
    | .ok _, .error _ => .isFalse (by simp)
    | .error _, .ok _ => .isFalse (by simp)

/-- Helper for `pySplit`: walk the character list, emitting a piece each
time the (non-empty) separator occurs, leftmost and non-overlapping.  The
fuel argument only establishes totality; `pySplit` supplies enough for the
whole input. -/
def pySplitAux (sep : List Char) : Nat → List Char → List Char → List (List Char)
  | _, [], cur => [cur.reverse]
  | 0, s, cur => [cur.reverse ++ s]
  | fuel + 1, c :: rest, cur =>
      if sep.isPrefixOf (c :: rest) then
        cur.reverse :: pySplitAux sep fuel ((c :: rest).drop sep.length) []
      else
        pySplitAux sep fuel rest (c :: cur)

/-- Python `s.split(sep)` for a non-empty separator: split on every
leftmost non-overlapping occurrence of the substring `sep`. -/
def pySplit (sep : String) (s : String) : List String :=
  (pySplitAux sep.data (s.data.length + 1) s.data []).map String.mk

/-- Python `str.strip()`: drop whitespace from both ends. -/
def pyStrip (s : String) : String :=
  String.mk
    ((((s.data.dropWhile Char.isWhitespace).reverse.dropWhile
        Char.isWhitespace)).reverse)

/-- Helper for `pyCount`, mirroring the fuel pattern of `pySplitAux`:
count the leftmost non-overlapping occurrences of the separator. -/
def pyCountAux (sep : List Char) : Nat → List Char → Nat
  | _, [] => 0
  | 0, _ => 0
  | fuel + 1, c :: rest =>
      if sep.isPrefixOf (c :: rest) then
        pyCountAux sep fuel ((c :: rest).drop sep.length) + 1
      else
        pyCountAux sep fuel rest

/-- Python `s.count(sep)` for a non-empty separator: the number of
leftmost non-overlapping occurrences of the substring `sep` in `s`. -/
def pyCount (sep : String) (s : String) : Nat :=
  pyCountAux sep.data (s.data.length + 1) s.data

/-- Python `str.capitalize()`: first character uppercased, all remaining
characters lowercased. -/
def pyCapitalize (s : String) : String :=
  match s.data with
  | [] => ""
  | c :: cs => String.mk (c.toUpper :: cs.map Char.toLower)

/-- The capitalization rule as the spec words it: first letter uppercased,
the case of the remaining characters unchanged.  Kept separate from
`pyCapitalize` so the two can be compared. -/
def specCapitalize (s : String) : String :=
  match s.data with
  | [] => ""
  | c :: cs => String.mk (c.toUpper :: cs)

/-- Errors the script can raise before or during a flow. -/
inductive ScriptError where
  /-- Raised as a `RuntimeError` about an unknown submission style by
  `create_locale_submitter`. -/
  | unknownSubmissionStyle : ScriptError
  /-- Raised as a `ValueError` by the tuple unpacking of the `build`-split
  when the token does not split into exactly two halves. -/
  | partialVersionFormat : ScriptError
  /-- A retry-wrapped remote call exhausted its retries and re-raised. -/
  | remoteCallFailed : ScriptError
  deriving DecidableEq, Repr

/-- Insert-or-replace into an association list, mimicking assignment into a
Python dict (`d[k] = v`): an existing binding keeps its position, a new key
goes to the end. -/
def dictInsert {β : Type} (k : String) (v : β) : List (String × β) → List (String × β)
  | [] => [(k, v)]
  | (k0, v0) :: rest =>
      if k0 = k then (k, v) :: rest else (k0, v0) :: dictInsert k v rest

/-- Python `del d[k]`: remove the binding for `k`.  A dict has at most one
binding per key, so dropping every binding of `k` agrees with `del`. -/
def dictRemove {β : Type} (k : String) : List (String × β) → List (String × β)
  | [] => []
  | (k0, v0) :: rest =>
      if k0 = k then dictRemove k rest else (k0, v0) :: dictRemove k rest

/-- Python `d.get(k)` / `d[k]`: look up a key. -/
def dictGet {β : Type} (k : String) : List (String × β) → Option β
  | [] => none
  | (k0, v0) :: rest => if k0 = k then some v0 else dictGet k rest

/-! ## Partial-version parsing (`submit_toplevel`, lines 140-145) -/

/-- One iteration of the parsing loop: `v = v.strip()`, then
`version, build_number = v.split("build")` (raising when the split does not
have exactly two halves), then `partials[version] = ...buildNumber...`.
The value dict `\x7b"buildNumber": bn\x7d` is represented by the build-number
string itself. -/
def parsePartialToken (acc : List (String × String)) (v : String) :
    Except ScriptError (List (String × String)) :=
  let v := pyStrip v
  match pySplit "build" v with
  | [version, bn] => .ok (dictInsert version bn acc)
  | _ => .error .partialVersionFormat

/-- The `for v in ...split(",")` loop: run `parsePartialToken` on each
token in order; the first raised error propagates. -/
def partialsLoop (acc : List (String × String)) :
    List String → Except ScriptError (List (String × String))
  | [] => .ok acc
  | v :: rest =>
      match parsePartialToken acc v with
      | .ok acc2 => partialsLoop acc2 rest
      | .error e => .error e

/-- The whole `partials` computation: start from an empty dict, then when
`payload.get("partial_versions")` is truthy (present and non-empty), loop
over the comma-split of the string. -/
def computePartials (pv : Option String) : Except ScriptError (List (String × String)) :=
  match pv with
  | none => .ok []
  | some s =>
      if s = "" then .ok []
      else partialsLoop [] (pySplit "," s)

/-- Partial parsing as the spec words it: split on commas, split each token
on the literal substring `build`, and trim whitespace from both halves.
Kept separate from `computePartials` so the two can be compared. -/
def specTokenLoop (acc : List (String × String)) :
    List String → Except ScriptError (List (String × String))
  | [] => .ok acc
  | v :: rest =>
      match pySplit "build" v with
      | [version, bn] => specTokenLoop (dictInsert (pyStrip version) (pyStrip bn) acc) rest
      | _ => .error ScriptError.partialVersionFormat

/-- The claim-worded parser built on `specTokenLoop`. -/
def specParsePartials (pv : Option String) : Except ScriptError (List (String × String)) :=
  match pv with
  | none => .ok []
  | some s =>
      if s = "" then .ok []
      else specTokenLoop [] (pySplit "," s)

/-- The amended wording of the parsing rule: split on commas, strip
whitespace from both ends of each whole token, then split the stripped
token on the literal substring `build`; the halves are not trimmed
further.  Stated spec-style with a monadic fold so it can be compared with
the loop of `computePartials`. -/
def specParsePartialsAmended (pv : Option String) :
    Except ScriptError (List (String × String)) :=
  match pv with
  | none => .ok []
  | some s =>
      if s = "" then .ok []
      else (pySplit "," s).foldlM
        (fun acc v =>
          match pySplit "build" (pyStrip v) with
          | [version, bn] => .ok (dictInsert version bn acc)
          | _ => .error ScriptError.partialVersionFormat) []

/-! ## Configuration and auth -/

/-- The auth pair `(balrog_username, balrog_password)`. -/
structure Auth where
  username : String
  password : String
  deriving DecidableEq, Repr

/-- The slice of the resolved config the flows read: `api_root`
and `dummy`. -/
structure Config where
  api_root : String
  dummy : Bool
  deriving DecidableEq, Repr

/-! ## Locale submission (`create_locale_submitter`, `submit_locale`) -/

/-- A value stored in a built request dict.  `completeInfo` / `partialInfo`
are opaque JSON blobs the script only copies around; they are represented
by strings. -/
inductive PyVal where
  | str : String → PyVal
  | nat : Nat → PyVal
  deriving DecidableEq, Repr

/-- One manifest entry.  `tc_release` / `tc_nightly` record the presence of
the style-marker keys (`"tc_release" in e`); `blob_suffix`,
`url_replacements` and `partialInfo` are the optional keys the code reads
with `.get` / `in`-guards. -/
structure ManifestEntry where
  tc_release : Bool
  tc_nightly : Bool
  platform : String
  appName : String
  appVersion : String
  version : String
  build_number : Nat
  locale : String
  hashType : String
  extVersion : String
  buildid : String
  completeInfo : String
  partialInfo : Option String
  branch : String
  blob_suffix : Option String
  url_replacements : List (String × String)
  deriving DecidableEq, Repr

/-- The submitter object constructed by `create_locale_submitter`: either
`ReleaseSubmitterV9(api_root, auth, dummy, suffix)` or
`NightlySubmitterV4(api_root, auth, dummy, url_replacements)` — note the
nightly constructor takes no suffix. -/
inductive Submitter where
  | releaseV9 (api_root : String) (auth : Auth) (dummy : Bool) (suffix : String)
  | nightlyV4 (api_root : String) (auth : Auth) (dummy : Bool)
      (url_replacements : List (String × String))
  deriving DecidableEq, Repr

/-- The `data` dict of the release branch, in the key order of the source,
with the optional `partialInfo` key appended when present. -/
def releaseLocaleData (e : ManifestEntry) : List (String × PyVal) :=
  let data : List (String × PyVal) :=
    [("platform", .str e.platform),
     ("productName", .str e.appName),
     ("appVersion", .str e.appVersion),
     ("version", .str e.version),
     ("build_number", .nat e.build_number),
     ("locale", .str e.locale),
     ("hashFunction", .str e.hashType),
     ("extVersion", .str e.extVersion),
     ("buildID", .str e.buildid),
     ("completeInfo", .str e.completeInfo)]
  match e.partialInfo with
  | some p => data ++ [("partialInfo", .str p)]
  | none => data

/-- The `data` dict of the nightly branch, in the key order of the source,
with the optional `partialInfo` key appended when present. -/
def nightlyLocaleData (e : ManifestEntry) : List (String × PyVal) :=
  let data : List (String × PyVal) :=
    [("platform", .str e.platform),
     ("buildID", .str e.buildid),
     ("productName", .str e.appName),
     ("branch", .str e.branch),
     ("appVersion", .str e.appVersion),
     ("locale", .str e.locale),
     ("hashFunction", .str e.hashType),
     ("extVersion", .str e.extVersion),
     ("completeInfo", .str e.completeInfo)]
  match e.partialInfo with
  | some p => data ++ [("partialInfo", .str p)]
  | none => data

/-- The function `create_locale_submitter(e, extra_suffix, balrog_auth, config)`:
dispatch on the style markers, build the submitter and the `data` dict. -/
def create_locale_submitter (e : ManifestEntry) (extra_suffix : String)
    (balrog_auth : Auth) (config : Config) :
    Except ScriptError (Submitter × List (String × PyVal)) :=
  if e.tc_release then
    let submitter := Submitter.releaseV9 config.api_root balrog_auth config.dummy
      ((e.blob_suffix.getD "") ++ extra_suffix)
    .ok (submitter, releaseLocaleData e)
  else if e.tc_nightly then
    let submitter := Submitter.nightlyV4 config.api_root balrog_auth config.dummy
      e.url_replacements
    .ok (submitter, nightlyLocaleData e)
  else
    .error .unknownSubmissionStyle

/-- A per-locale remote call: `retry(lambda: submitter.run(**release))`. -/
structure LocaleCall where
  submitter : Submitter
  release : List (String × PyVal)
  deriving DecidableEq, Repr

/-- The outcome of one flow: the remote calls attempted, in issue order,
and the error that aborted the flow, when one did. -/
structure RunResult (κ : Type) where
  calls : List κ
  error : Option ScriptError
  deriving DecidableEq, Repr

/-- The loop body of `submit_locale` over `manifest x suffixes`, threading
the remote-call oracle index. -/
def submit_locale_go (balrog_auth : Auth) (config : Config) (ok : Nat → Bool) :
    Nat → List (ManifestEntry × String) → List LocaleCall → RunResult LocaleCall
  | _, [], acc => ⟨acc, none⟩
  | n, (e, suffix) :: rest, acc =>
      match create_locale_submitter e suffix balrog_auth config with
      | .error err => ⟨acc, some err⟩
      | .ok (submitter, release) =>
          if ok n then
            submit_locale_go balrog_auth config ok (n + 1) rest
              (acc ++ [⟨submitter, release⟩])
          else
            ⟨acc ++ [⟨submitter, release⟩], some .remoteCallFailed⟩

/-- The function `submit_locale(task, config, balrog_auth)`: fan out over manifest
entries and the payload field `suffixes` (default `[""]`), building and
immediately executing one retry-wrapped call per pair.  `ok n` says whether
the `n`-th remote call eventually succeeds within its retry bound. -/
def submit_locale (ok : Nat → Bool) (manifest : List ManifestEntry)
    (suffixes : Option (List String)) (config : Config) (balrog_auth : Auth) :
    RunResult LocaleCall :=
  let suffixes := suffixes.getD [""]
  submit_locale_go balrog_auth config ok 0
    (manifest.flatMap (fun e => suffixes.map (fun s => (e, s)))) []

/-! ## Scheduling (`schedule`) -/

/-- The payload fields the `schedule` action reads. -/
structure SchedulePayload where
  product : String
  version : String
  build_number : Nat
  publish_rules : List Nat
  release_eta : String
  blob_suffix : Option String
  deriving DecidableEq, Repr

/-- The `ReleaseScheduler(...)` constructor arguments. -/
structure SchedulerArgs where
  api_root : String
  auth : Auth
  dummy : Bool
  suffix : String
  deriving DecidableEq, Repr

/-- The positional arguments handed to `scheduler.run(*args)`.  The last,
`release_eta or None`, is an `Option`: `none` models the Python `None`. -/
structure SchedulerRunArgs where
  product : String
  version : String
  build_number : Nat
  publish_rules : List Nat
  release_eta : Option String
  deriving DecidableEq, Repr

/-- The one remote call `schedule` makes. -/
structure ScheduleCall where
  scheduler : SchedulerArgs
  args : SchedulerRunArgs
  deriving DecidableEq, Repr

/-- The function `schedule(task, config, balrog_auth)`: build the scheduler and its
argument list, then run the retry-wrapped call once.  `ok 0` says whether
that call eventually succeeds within its retry bound. -/
def schedule (ok : Nat → Bool) (payload : SchedulePayload) (config : Config)
    (balrog_auth : Auth) : RunResult ScheduleCall :=
  let scheduler : SchedulerArgs :=
    ⟨config.api_root, balrog_auth, config.dummy, payload.blob_suffix.getD ""⟩
  let args : SchedulerRunArgs :=
    ⟨pyCapitalize payload.product,
     payload.version,
     payload.build_number,
     payload.publish_rules,
     if payload.release_eta = "" then none else some payload.release_eta⟩
  ⟨[⟨scheduler, args⟩], if ok 0 then none else some .remoteCallFailed⟩

/-! ## Top-level submission (`submit_toplevel`) -/

/-- The payload fields the `submit-toplevel` action reads.  `update_line`
maps a suffix to an opaque update-line object (`α`); absence is the empty
list, matching the `update_line` default of an empty dict. -/
structure ToplevelPayload (α : Type) where
  product : String
  app_version : String
  version : String
  build_number : Nat
  channel_names : List String
  archive_domain : String
  download_domain : String
  platforms : List String
  require_mirrors : Bool
  rules_to_update : List Nat
  partial_versions : Option String
  update_line : List (String × α)
  blob_suffix : Option String
  complete_mar_filename_pattern : Option String
  complete_mar_bouncer_product_pattern : Option String
  deriving DecidableEq, Repr

/-- The `ReleaseCreatorV9(...)` constructor arguments. -/
structure CreatorArgs where
  api_root : String
  auth : Auth
  dummy : Bool
  suffix : String
  complete_mar_filename_pattern : Option String
  complete_mar_bouncer_product_pattern : Option String
  deriving DecidableEq, Repr

/-- The keyword arguments of one `creator.run(...)` call. -/
structure CreatorRunArgs (α : Type) where
  appVersion : String
  productName : String
  version : String
  buildNumber : Nat
  updateChannels : List String
  ftpServer : String
  bouncerServer : String
  enUSPlatforms : List String
  hashFunction : String
  partialUpdates : List (String × String)
  requiresMirrors : Bool
  updateLine : Option α
  deriving DecidableEq, Repr

/-- The `ReleasePusher(...)` constructor arguments. -/
structure PusherArgs where
  api_root : String
  auth : Auth
  dummy : Bool
  suffix : String
  deriving DecidableEq, Repr

/-- The keyword arguments of the `pusher.run(...)` call. -/
structure PusherRunArgs where
  productName : String
  version : String
  build_number : Nat
  rule_ids : List Nat
  deriving DecidableEq, Repr

/-- A remote call issued by `submit_toplevel`: either a per-suffix
creation call or the final push call. -/
inductive ToplevelCall (α : Type) where
  | create (creator : CreatorArgs) (run : CreatorRunArgs α)
  | push (pusher : PusherArgs) (run : PusherRunArgs)
  deriving DecidableEq, Repr

/-- Whether a `ToplevelCall` is the push call. -/
def ToplevelCall.isPush {α : Type} : ToplevelCall α → Bool
  | .push _ _ => true
  | .create _ _ => false

/-- The suffix fan-out: the keys of `update_line`, or a single empty
suffix when there are none. -/
def toplevelSuffixes {α : Type} (p : ToplevelPayload α) : List String :=
  let keys := p.update_line.map Prod.fst
  if keys.isEmpty then [""] else keys

/-- The creation call built for one suffix. -/
def creatorCallFor {α : Type} (p : ToplevelPayload α) (config : Config)
    (balrog_auth : Auth) (partials : List (String × String)) (suffix : String) :
    ToplevelCall α :=
  .create
    ⟨config.api_root, balrog_auth, config.dummy,
     (p.blob_suffix.getD "") ++ suffix,
     p.complete_mar_filename_pattern,
     p.complete_mar_bouncer_product_pattern⟩
    ⟨p.app_version,
     pyCapitalize p.product,
     p.version,
     p.build_number,
     p.channel_names,
     p.archive_domain,
     p.download_domain,
     p.platforms,
     "sha512",
     partials,
     p.require_mirrors,
     dictGet suffix p.update_line⟩

/-- The single push call built after the creation loop. -/
def pusherCall {α : Type} (p : ToplevelPayload α) (config : Config)
    (balrog_auth : Auth) : ToplevelCall α :=
  .push
    ⟨config.api_root, balrog_auth, config.dummy, p.blob_suffix.getD ""⟩
    ⟨pyCapitalize p.product, p.version, p.build_number, p.rules_to_update⟩

/-- The creation loop of `submit_toplevel`: issue one creation call per
suffix, aborting on the first call that exhausts its retries. -/
def submit_toplevel_go {α : Type} (p : ToplevelPayload α) (config : Config)
    (balrog_auth : Auth) (partials : List (String × String)) (ok : Nat → Bool) :
    Nat → List String → List (ToplevelCall α) → RunResult (ToplevelCall α)
  | n, [], acc =>
      let pc := pusherCall p config balrog_auth
      ⟨acc ++ [pc], if ok n then none else some .remoteCallFailed⟩
  | n, suffix :: rest, acc =>
      let c := creatorCallFor p config balrog_auth partials suffix
      if ok n then
        submit_toplevel_go p config balrog_auth partials ok (n + 1) rest (acc ++ [c])
      else
        ⟨acc ++ [c], some .remoteCallFailed⟩

/-- The function `submit_toplevel(task, config, balrog_auth)`: parse the partial
versions, fan out creation calls over the suffixes, then push.  `ok n` says
whether the `n`-th remote call eventually succeeds within its retry
bound. -/
def submit_toplevel {α : Type} (ok : Nat → Bool) (p : ToplevelPayload α)
    (config : Config) (balrog_auth : Auth) : RunResult (ToplevelCall α) :=
  match computePartials p.partial_versions with
  | .error err => ⟨[], some err⟩
  | .ok partials =>
      submit_toplevel_go p config balrog_auth partials ok 0 (toplevelSuffixes p) []

/-! ## Config resolution (`update_config`) -/

/-- One entry of the `server_config` mapping. -/
structure ServerEntry where
  api_root : String
  balrog_username : String
  balrog_password : String
  deriving DecidableEq, Repr

/-- A top-level config value: the `server_config` mapping or any other
JSON value (represented opaquely by a string). -/
inductive ConfigVal where
  | plain : String → ConfigVal
  | servers : List (String × ServerEntry) → ConfigVal
  deriving DecidableEq, Repr

/-- The function `update_config(config, server)`: deep-copy the config (the input is
left untouched — automatic in this pure model), set `api_root` from the
selected server entry, read the credentials, delete `server_config`, and
return `((username, password), config)`.  `none` models the `KeyError`
raised when `server_config` or the server key is missing. -/
def update_config (config : List (String × ConfigVal)) (server : String) :
    Option ((String × String) × List (String × ConfigVal)) :=
  match dictGet "server_config" config with
  | some (.servers sc) =>
      match dictGet server sc with
      | some entry =>
          let config := dictInsert "api_root" (.plain entry.api_root) config
          let username := entry.balrog_username
          let password := entry.balrog_password
          let config := dictRemove "server_config" config
          some ((username, password), config)
      | none => none
  | _ => none

/-- The product-name field a top-level call sends: `productName` of the
creation or push keyword arguments. -/
def ToplevelCall.productName {α : Type} : ToplevelCall α → String
  | .create _ r => r.productName
  | .push _ r => r.productName

/-! ## Concrete fixtures used by witnesses and counterexamples -/

/-- A concrete resolved config. -/
def cfgEx : Config := ⟨"https://balrog.example/api", false⟩

/-- A concrete auth pair. -/
def authEx : Auth := ⟨"balrogadmin", "hunter2"⟩

/-- A manifest entry with neither style marker. -/
def entryNeither : ManifestEntry :=
  ⟨false, false, "win64", "Firefox", "100.0", "100.0", 1, "en-US", "sha512",
   "100.0", "20240101000000", "complete-info", none, "mozilla-central", none, []⟩

/-- The same entry carrying both style markers. -/
def entryBoth : ManifestEntry :=
  ⟨true, true, "win64", "Firefox", "100.0", "100.0", 1, "en-US", "sha512",
   "100.0", "20240101000000", "complete-info", none, "mozilla-central", none, []⟩

/-- The same entry carrying only the release marker. -/
def entryRel : ManifestEntry :=
  ⟨true, false, "win64", "Firefox", "100.0", "100.0", 1, "en-US", "sha512",
   "100.0", "20240101000000", "complete-info", none, "mozilla-central", none, []⟩

/-- The same entry carrying only the nightly marker. -/
def entryNight : ManifestEntry :=
  ⟨false, true, "win64", "Firefox", "100.0", "100.0", 1, "en-US", "sha512",
   "100.0", "20240101000000", "complete-info", none, "mozilla-central", none, []⟩

/-- The submit-toplevel task of the end-to-end scenario: no `update_line`,
one partial version. -/
def toplevelTaskC6 : ToplevelPayload Unit :=
  ⟨"firefox", "100.0", "100.0", 1, ["release"], "a", "b", ["win64"], true,
   [12], some "99.0build3", [], none, none, none⟩

/-- A submit-toplevel task whose product name has mixed case past the
first letter. -/
def toplevelTaskOddCase : ToplevelPayload Unit :=
  ⟨"fireFOX", "100.0", "100.0", 1, ["release"], "a", "b", ["win64"], true,
   [12], none, [], none, none, none⟩

/-- A submit-toplevel task with two `update_line` suffixes. -/
def toplevelTaskTwoLines : ToplevelPayload Unit :=
  ⟨"firefox", "100.0", "100.0", 1, ["release"], "a", "b", ["win64"], true,
   [12], none, [("-suffix1", ()), ("-suffix2", ())], none, none, none⟩

/-- A submit-toplevel task whose partial-versions token holds two `build`
substrings. -/
def toplevelTaskBadPartial : ToplevelPayload Unit :=
  ⟨"firefox", "100.0", "100.0", 1, ["release"], "a", "b", ["win64"], true,
   [12], some "56.0build1build2", [], none, none, none⟩

/-- An oracle under which only the first remote call succeeds. -/
def okFailSecond : Nat → Bool := fun n => n == 0

/-- A scheduling payload with an empty release ETA. -/
def schedPayloadNoEta : SchedulePayload :=
  ⟨"firefox", "100.0", 1, [12], "", none⟩

/-- A scheduling payload with a set release ETA. -/
def schedPayloadEta : SchedulePayload :=
  ⟨"firefox", "100.0", 1, [12], "2024-06-01T12:00:00Z", none⟩

/-- A concrete server entry. -/
def serverEntryEx : ServerEntry :=
  ⟨"https://balrog.example/api", "balrogadmin", "hunter2"⟩

/-- A concrete `server_config` mapping. -/
def serverConfigEx : List (String × ServerEntry) := [("default", serverEntryEx)]

/-- A concrete full config, with an unrelated `verbose` key for the frame
condition. -/
def configEx10 : List (String × ConfigVal) :=
  [("verbose", .plain "true"), ("server_config", .servers serverConfigEx),
   ("dummy", .plain "false")]

/-! ## Dictionary lemmas -/

theorem dictGet_dictInsert_self {β : Type} (k : String) (v : β)
    (l : List (String × β)) : dictGet k (dictInsert k v l) = some v := by
  induction l with
  | nil => simp [dictInsert, dictGet]
  | cons kv rest ih =>
      obtain ⟨k0, v0⟩ := kv
      by_cases h : k0 = k
      · simp [dictInsert, dictGet, h]
      · simp [dictInsert, dictGet, h, ih]

theorem dictGet_dictInsert_ne {β : Type} (k k2 : String) (v : β)
    (l : List (String × β)) (h : k2 ≠ k) :
    dictGet k2 (dictInsert k v l) = dictGet k2 l := by
  induction l with
  | nil => simp [dictInsert, dictGet, Ne.symm h]
  | cons kv rest ih =>
      obtain ⟨k0, v0⟩ := kv
      by_cases h0 : k0 = k
      · subst h0
        simp [dictInsert, dictGet, Ne.symm h]
      · by_cases h2 : k0 = k2
        · simp [dictInsert, dictGet, h0, h2, h]
        · simp [dictInsert, dictGet, h0, h2, ih]

theorem dictGet_dictRemove_self {β : Type} (k : String)
    (l : List (String × β)) : dictGet k (dictRemove k l) = none := by
  induction l with
  | nil => simp [dictRemove, dictGet]
  | cons kv rest ih =>
      obtain ⟨k0, v0⟩ := kv
      by_cases h : k0 = k
      · simp [dictRemove, h, ih]
      · simp [dictRemove, dictGet, h, ih]

theorem dictGet_dictRemove_ne {β : Type} (k k2 : String)
    (l : List (String × β)) (h : k2 ≠ k) :
    dictGet k2 (dictRemove k l) = dictGet k2 l := by
  induction l with
  | nil => simp [dictRemove]
  | cons kv rest ih =>
      obtain ⟨k0, v0⟩ := kv
      by_cases h0 : k0 = k
      · subst h0
        have : ¬ k0 = k2 := fun e => h e.symm
        simp [dictRemove, dictGet, this, ih]
      · simp only [dictRemove, h0, if_neg]
        by_cases h2 : k0 = k2
        · simp [dictGet, h2]
        · simp [dictGet, h2, ih]

/-! ## Splitting and counting lemmas -/

theorem pySplitAux_length (sep : List Char) (hsep : sep ≠ []) :
    ∀ (fuel : Nat) (s cur : List Char), s.length ≤ fuel →
      (pySplitAux sep fuel s cur).length = pyCountAux sep fuel s + 1 := by
  intro fuel
  induction fuel with
  | zero =>
      intro s cur hs
      have hnil : s = [] := List.length_eq_zero.mp (Nat.le_zero.mp hs)
      subst hnil
      simp [pySplitAux, pyCountAux]
  | succ fuel ih =>
      intro s cur hs
      cases s with
      | nil => simp [pySplitAux, pyCountAux]
      | cons c rest =>
          have hseplen : 1 ≤ sep.length := by
            cases sep with
            | nil => exact absurd rfl hsep
            | cons a t => simp
          by_cases hpre : sep.isPrefixOf (c :: rest)
          · have hdrop : ((c :: rest).drop sep.length).length ≤ fuel := by
              rw [List.length_drop]
              simp only [List.length_cons] at hs ⊢
              omega
            simp only [pySplitAux, pyCountAux, hpre, if_pos, List.length_cons]
            rw [ih _ [] hdrop]
          · have hrest : rest.length ≤ fuel := by
              simp only [List.length_cons] at hs
              omega
            simp only [pySplitAux, pyCountAux, hpre, if_neg, not_false_iff]
            exact ih rest (c :: cur) hrest

theorem pySplit_length_eq_count (sep s : String) (hsep : sep.data ≠ []) :
    (pySplit sep s).length = pyCount sep s + 1 := by
  unfold pySplit pyCount
  rw [List.length_map]
  exact pySplitAux_length sep.data hsep _ s.data [] (Nat.le_succ _)

/-! ## Partial-token lemmas -/

theorem parsePartialToken_error_eq (acc : List (String × String)) (tok : String)
    (e : ScriptError) (h : parsePartialToken acc tok = .error e) :
    e = .partialVersionFormat := by
  simp only [parsePartialToken] at h
  cases hsp : pySplit "build" (pyStrip tok) with
  | nil => rw [hsp] at h; simp at h; exact h.symm
  | cons a t =>
      cases t with
      | nil => rw [hsp] at h; simp at h; exact h.symm
      | cons b t2 =>
          cases t2 with
          | nil => rw [hsp] at h; simp at h
          | cons d t3 => rw [hsp] at h; simp at h; exact h.symm

theorem parsePartialToken_count_ne_one (acc : List (String × String))
    (tok : String) (h : pyCount "build" (pyStrip tok) ≠ 1) :
    parsePartialToken acc tok = .error .partialVersionFormat := by
  have hlen : (pySplit "build" (pyStrip tok)).length =
      pyCount "build" (pyStrip tok) + 1 :=
    pySplit_length_eq_count "build" (pyStrip tok) (by decide)
  simp only [parsePartialToken]
  cases hsp : pySplit "build" (pyStrip tok) with
  | nil => rfl
  | cons a t =>
      cases t with
      | nil => rfl
      | cons b t2 =>
          cases t2 with
          | nil =>
              exfalso
              apply h
              rw [hsp] at hlen
              simpa using hlen.symm
          | cons d t3 => rfl

theorem partialsLoop_error_of_mem (toks : List String) :
    ∀ (acc : List (String × String)) (tok : String), tok ∈ toks →
      pyCount "build" (pyStrip tok) ≠ 1 →
      partialsLoop acc toks = .error .partialVersionFormat := by
  induction toks with
  | nil => intro acc tok htok; cases htok
  | cons t rest ih =>
      intro acc tok htok hcount
      rcases List.mem_cons.mp htok with rfl | hmem
      · unfold partialsLoop
        rw [parsePartialToken_count_ne_one acc tok hcount]
      · cases hft : parsePartialToken acc t with
        | ok acc2 =>
            unfold partialsLoop
            rw [hft]
            exact ih acc2 tok hmem hcount
        | error e =>
            unfold partialsLoop
            rw [hft, parsePartialToken_error_eq acc t e hft]

theorem partialsLoop_eq_foldlM (toks : List String) :
    ∀ acc : List (String × String),
      partialsLoop acc toks =
        toks.foldlM
          (fun acc v =>
            match pySplit "build" (pyStrip v) with
            | [version, bn] => .ok (dictInsert version bn acc)
            | _ => .error ScriptError.partialVersionFormat) acc := by
  induction toks with
  | nil => intro acc; rfl
  | cons t rest ih =>
      intro acc
      rw [List.foldlM_cons]
      unfold partialsLoop
      simp only [parsePartialToken]
      cases hsp : pySplit "build" (pyStrip t) with
      | nil => rfl
      | cons a u =>
          cases u with
          | nil => rfl
          | cons b u2 =>
              cases u2 with
              | nil => exact ih (dictInsert a b acc)
              | cons d u3 => rfl

/-! ## Characterization of the top-level creation loop -/

theorem submit_toplevel_go_all_ok {α : Type} (p : ToplevelPayload α)
    (cfg : Config) (auth : Auth) (partials : List (String × String))
    (ok : Nat → Bool) :
    ∀ (sfx : List String) (n : Nat) (acc : List (ToplevelCall α)),
      (∀ i, i < sfx.length → ok (n + i) = true) →
      submit_toplevel_go p cfg auth partials ok n sfx acc =
        ⟨acc ++ sfx.map (creatorCallFor p cfg auth partials)
            ++ [pusherCall p cfg auth],
         if ok (n + sfx.length) then none else some .remoteCallFailed⟩ := by
  intro sfx
  induction sfx with
  | nil =>
      intro n acc h
      simp [submit_toplevel_go]
  | cons s rest ih =>
      intro n acc h
      have h0 : ok n = true := by simpa using h 0 (by simp)
      have hrest : ∀ i, i < rest.length → ok (n + 1 + i) = true := by
        intro i hi
        have e : n + 1 + i = n + (i + 1) := by omega
        rw [e]
        exact h (i + 1) (by simpa using Nat.succ_lt_succ hi)
      simp only [submit_toplevel_go, h0, if_pos]
      rw [ih (n + 1) (acc ++ [creatorCallFor p cfg auth partials s]) hrest]
      have hidx : n + 1 + rest.length = n + (s :: rest).length := by
        simp only [List.length_cons]
        omega
      rw [hidx]
      simp [List.append_assoc]

theorem submit_toplevel_go_first_fail {α : Type} (p : ToplevelPayload α)
    (cfg : Config) (auth : Auth) (partials : List (String × String))
    (ok : Nat → Bool) :
    ∀ (sfx : List String) (n : Nat) (acc : List (ToplevelCall α)) (i : Nat),
      i < sfx.length → (∀ j, j < i → ok (n + j) = true) → ok (n + i) = false →
      submit_toplevel_go p cfg auth partials ok n sfx acc =
        ⟨acc ++ (sfx.take (i + 1)).map (creatorCallFor p cfg auth partials),
         some .remoteCallFailed⟩ := by
  intro sfx
  induction sfx with
  | nil =>
      intro n acc i hi
      simp at hi
  | cons s rest ih =>
      intro n acc i hi hj hf
      cases i with
      | zero =>
          have h0 : ok n = false := by simpa using hf
          simp [submit_toplevel_go, h0]
      | succ i =>
          have h0 : ok n = true := by simpa using hj 0 (Nat.succ_pos _)
          have hi2 : i < rest.length := by simpa using Nat.lt_of_succ_lt_succ hi
          have hj2 : ∀ j, j < i → ok (n + 1 + j) = true := by
            intro j hjlt
            have e : n + 1 + j = n + (j + 1) := by omega
            rw [e]
            exact hj (j + 1) (Nat.succ_lt_succ hjlt)
          have hf2 : ok (n + 1 + i) = false := by
            have e : n + 1 + i = n + (i + 1) := by omega
            rw [e]
            exact hf
          simp only [submit_toplevel_go, h0, if_pos]
          rw [ih (n + 1) (acc ++ [creatorCallFor p cfg auth partials s]) i hi2 hj2 hf2]
          simp [List.append_assoc]

theorem submit_toplevel_go_mem {α : Type} (p : ToplevelPayload α)
    (cfg : Config) (auth : Auth) (partials : List (String × String))
    (ok : Nat → Bool) :
    ∀ (sfx : List String) (n : Nat) (acc : List (ToplevelCall α))
      (c : ToplevelCall α),
      c ∈ (submit_toplevel_go p cfg auth partials ok n sfx acc).calls →
      c ∈ acc ∨ (∃ s, c = creatorCallFor p cfg auth partials s)
        ∨ c = pusherCall p cfg auth := by
  intro sfx
  induction sfx with
  | nil =>
      intro n acc c hc
      simp only [submit_toplevel_go] at hc
      rcases List.mem_append.mp hc with h | h
      · exact Or.inl h
      · exact Or.inr (Or.inr (by simpa using h))
  | cons s rest ih =>
      intro n acc c hc
      by_cases h0 : ok n = true
      · simp only [submit_toplevel_go, h0, if_pos] at hc
        rcases ih (n + 1) (acc ++ [creatorCallFor p cfg auth partials s]) c hc with
          h | h | h
        · rcases List.mem_append.mp h with h2 | h2
          · exact Or.inl h2
          · exact Or.inr (Or.inl ⟨s, by simpa using h2⟩)
        · exact Or.inr (Or.inl h)
        · exact Or.inr (Or.inr h)
      · have h0f : ok n = false := by simpa using h0
        simp only [submit_toplevel_go, h0f] at hc
        rcases List.mem_append.mp hc with h | h
        · exact Or.inl h
        · exact Or.inr (Or.inl ⟨s, by simpa using h⟩)

theorem filter_isPush_map_creator {α : Type} (p : ToplevelPayload α)
    (cfg : Config) (auth : Auth) (partials : List (String × String))
    (sfx : List String) :
    (sfx.map (creatorCallFor p cfg auth partials)).filter
      (fun c => c.isPush) = [] := by
  induction sfx with
  | nil => rfl
  | cons s rest ih => simp [creatorCallFor, ToplevelCall.isPush, ih]

/-! ## Claim theorems -/

/-- C4, counterexample: the claim says each comma token is split on
`build` and whitespace is then trimmed from both halves.  The code
instead strips the whole token before splitting, so whitespace that sits
next to `build` inside the token survives: on `"56.0build 1"` the code
keeps the leading space of the build number, while the claim-worded
parser trims it. -/
theorem computePartials_inner_whitespace :
    computePartials (some "56.0build 1") = .ok [("56.0", " 1")]
    ∧ specParsePartials (some "56.0build 1") = .ok [("56.0", "1")]
    ∧ computePartials (some "56.0build 1")
        ≠ specParsePartials (some "56.0build 1") :=
  ⟨by decide, by decide, by decide⟩

/-- C4, amended: parsing a partial-versions string splits it on commas,
strips whitespace from both ends of each whole token, then splits the
stripped token on the literal substring `build` (the halves are not
trimmed further), producing the mapping version to build number; the
empty input yields an empty mapping, and the example from the claim
still holds. -/
theorem computePartials_amended_spec :
    (∀ pv, computePartials pv = specParsePartialsAmended pv)
    ∧ computePartials (some "") = .ok []
    ∧ computePartials none = .ok []
    ∧ computePartials (some "56.0build1, 57.0build2") =
        .ok [("56.0", "1"), ("57.0", "2")] := by
  refine ⟨?_, by decide, by decide, by decide⟩
  intro pv
  cases pv with
  | none => rfl
  | some s =>
      unfold computePartials specParsePartialsAmended
      by_cases h : s = ""
      · simp [h]
      · simp only [h, if_neg, if_false]
        exact partialsLoop_eq_foldlM (pySplit "," s) []

/-- C5: a partial-versions token whose (stripped) text does not contain
the substring `build` exactly once makes the parsing fail with the
partial-version format error, and `submit_toplevel` aborts with an empty
call trace — before any remote call, and independently of the remote
oracle, i.e. without any retry.  (Stripping cannot change the number of
`build` occurrences, as `build` holds no whitespace.) -/
theorem malformed_partial_token_aborts {α : Type} (ok : Nat → Bool)
    (p : ToplevelPayload α) (cfg : Config) (auth : Auth) (raw tok : String)
    (hraw : p.partial_versions = some raw) (hne : raw ≠ "")
    (htok : tok ∈ pySplit "," raw)
    (hcount : pyCount "build" (pyStrip tok) ≠ 1) :
    computePartials p.partial_versions = .error .partialVersionFormat
    ∧ submit_toplevel ok p cfg auth = ⟨[], some .partialVersionFormat⟩ := by
  have hcp : computePartials p.partial_versions =
      .error .partialVersionFormat := by
    rw [hraw]
    unfold computePartials
    simp only [hne, if_neg, if_false]
    exact partialsLoop_error_of_mem (pySplit "," raw) [] tok htok hcount
  refine ⟨hcp, ?_⟩
  unfold submit_toplevel
  rw [hcp]

/-- C5, witness: the theorem applied to a token holding `build` twice. -/
theorem malformed_partial_token_aborts_witness :
    toplevelTaskBadPartial.partial_versions = some "56.0build1build2"
    ∧ ("56.0build1build2" : String) ≠ ""
    ∧ "56.0build1build2" ∈ pySplit "," "56.0build1build2"
    ∧ pyCount "build" (pyStrip "56.0build1build2") ≠ 1
    ∧ computePartials toplevelTaskBadPartial.partial_versions =
        .error .partialVersionFormat
    ∧ submit_toplevel (fun _ => true) toplevelTaskBadPartial cfgEx authEx =
        ⟨[], some .partialVersionFormat⟩ := by
  have h := malformed_partial_token_aborts (fun _ => true)
    toplevelTaskBadPartial cfgEx authEx "56.0build1build2" "56.0build1build2"
    rfl (by decide) (by decide) (by decide)
  exact ⟨rfl, by decide, by decide, by decide, h.1, h.2⟩

/-- C6: the end-to-end submit-toplevel scenario (product `firefox`, one
partial version `99.0build3`, no `update_line`) issues exactly one
creation call — with productName `Firefox`, hashFunction `sha512` and
partial updates mapping `99.0` to build number `3` — followed by exactly
one push call with rule ids `[12]`. -/
theorem submit_toplevel_end_to_end :
    submit_toplevel (fun _ => true) toplevelTaskC6 cfgEx authEx =
      ⟨[ToplevelCall.create
          ⟨"https://balrog.example/api", authEx, false, "", none, none⟩
          ⟨"100.0", "Firefox", "100.0", 1, ["release"], "a", "b", ["win64"],
           "sha512", [("99.0", "3")], true, none⟩,
        ToplevelCall.push
          ⟨"https://balrog.example/api", authEx, false, ""⟩
          ⟨"Firefox", "100.0", 1, [12]⟩],
       none⟩ := by decide

/-- C7: a scheduling task with the empty-string release ETA sends `none`
(the Python `None`) to the scheduler call, not the empty string; a
non-empty release ETA is passed through unchanged. -/
theorem schedule_eta_normalization (ok : Nat → Bool) (p : SchedulePayload)
    (cfg : Config) (auth : Auth) :
    (p.release_eta = "" →
      (schedule ok p cfg auth).calls.map (fun c => c.args.release_eta)
        = [none])
    ∧ (p.release_eta ≠ "" →
      (schedule ok p cfg auth).calls.map (fun c => c.args.release_eta)
        = [some p.release_eta]) := by
  constructor <;> intro h <;> simp [schedule, h]

/-- C7, witness: the theorem applied to the empty and a non-empty ETA. -/
theorem schedule_eta_normalization_witness :
    ((schedule (fun _ => true) schedPayloadNoEta cfgEx authEx).calls.map
        (fun c => c.args.release_eta) = [none])
    ∧ ((schedule (fun _ => true) schedPayloadEta cfgEx authEx).calls.map
        (fun c => c.args.release_eta) = [some "2024-06-01T12:00:00Z"]) := by
  refine ⟨(schedule_eta_normalization (fun _ => true)
    schedPayloadNoEta cfgEx authEx).1 rfl, ?_⟩
  exact (schedule_eta_normalization (fun _ => true)
    schedPayloadEta cfgEx authEx).2 (by decide)

/-- C1, counterexample: the claim says an entry carrying BOTH style
markers fails with the unknown-submission-style error and no remote call
occurs.  The code checks `tc_release` first, so an entry with both
markers is built as release style, and `submit_locale` issues its remote
call. -/
theorem both_markers_counterexample :
    create_locale_submitter entryBoth "" authEx cfgEx
        ≠ .error .unknownSubmissionStyle
    ∧ (submit_locale (fun _ => true) [entryBoth] none cfgEx authEx).calls.length
        = 1
    ∧ (submit_locale (fun _ => true) [entryBoth] none cfgEx authEx).error
        = none :=
  ⟨by decide, by decide, by decide⟩

/-- C1, amended: an entry with NEITHER style marker fails with the
unknown-submission-style error and no remote call occurs; an entry
carrying both markers is handled as release style (the release marker is
checked first), so no error is raised for it. -/
theorem locale_style_dispatch (e both : ManifestEntry) (extra : String)
    (auth : Auth) (cfg : Config) (ok : Nat → Bool)
    (h1 : e.tc_release = false) (h2 : e.tc_nightly = false)
    (hb : both.tc_release = true) (_hb2 : both.tc_nightly = true) :
    create_locale_submitter e extra auth cfg = .error .unknownSubmissionStyle
    ∧ submit_locale ok [e] none cfg auth = ⟨[], some .unknownSubmissionStyle⟩
    ∧ create_locale_submitter both extra auth cfg =
        .ok (.releaseV9 cfg.api_root auth cfg.dummy
              ((both.blob_suffix.getD "") ++ extra), releaseLocaleData both) := by
  have herr : ∀ x : String, create_locale_submitter e x auth cfg =
      .error .unknownSubmissionStyle := by
    intro x
    simp [create_locale_submitter, h1, h2]
  refine ⟨herr extra, ?_, ?_⟩
  · simp [submit_locale, submit_locale_go, herr ""]
  · simp [create_locale_submitter, hb]

/-- C1, witness: the dispatch theorem at the concrete entries. -/
theorem locale_style_dispatch_witness :
    entryNeither.tc_release = false ∧ entryNeither.tc_nightly = false
    ∧ entryBoth.tc_release = true ∧ entryBoth.tc_nightly = true
    ∧ create_locale_submitter entryNeither "x" authEx cfgEx =
        .error .unknownSubmissionStyle
    ∧ submit_locale (fun _ => true) [entryNeither] none cfgEx authEx =
        ⟨[], some .unknownSubmissionStyle⟩
    ∧ create_locale_submitter entryBoth "x" authEx cfgEx =
        .ok (.releaseV9 cfgEx.api_root authEx cfgEx.dummy
              ((entryBoth.blob_suffix.getD "") ++ "x"),
             releaseLocaleData entryBoth) := by
  have h := locale_style_dispatch entryNeither entryBoth "x" authEx cfgEx
    (fun _ => true) rfl rfl rfl rfl
  exact ⟨rfl, rfl, rfl, rfl, h.1, h.2.1, h.2.2⟩

/-- C8: with exactly the release marker, the builder produces a
release-style submitter and a request dict holding the build-number and
version fields and no branch field; with exactly the nightly marker, it
produces a nightly-style submitter holding the url replacements in its
constructor, and a request dict holding a branch field, no build-number
field and no url-replacements field.  (The spec names the build-number
request field `buildNumber`; in the source dict the key is spelled
`build_number`.) -/
theorem locale_style_fields (e : ManifestEntry) (extra : String)
    (auth : Auth) (cfg : Config) :
    (e.tc_release = true → e.tc_nightly = false →
      create_locale_submitter e extra auth cfg =
          .ok (.releaseV9 cfg.api_root auth cfg.dummy
                ((e.blob_suffix.getD "") ++ extra), releaseLocaleData e)
        ∧ "build_number" ∈ (releaseLocaleData e).map Prod.fst
        ∧ "version" ∈ (releaseLocaleData e).map Prod.fst
        ∧ "branch" ∉ (releaseLocaleData e).map Prod.fst)
    ∧ (e.tc_nightly = true → e.tc_release = false →
      create_locale_submitter e extra auth cfg =
          .ok (.nightlyV4 cfg.api_root auth cfg.dummy e.url_replacements,
               nightlyLocaleData e)
        ∧ "branch" ∈ (nightlyLocaleData e).map Prod.fst
        ∧ "build_number" ∉ (nightlyLocaleData e).map Prod.fst
        ∧ "url_replacements" ∉ (nightlyLocaleData e).map Prod.fst) := by
  constructor
  · intro h1 h2
    refine ⟨by simp [create_locale_submitter, h1], ?_, ?_, ?_⟩ <;>
      cases hpi : e.partialInfo <;> simp [releaseLocaleData, hpi]
  · intro h1 h2
    refine ⟨by simp [create_locale_submitter, h1, h2], ?_, ?_, ?_⟩ <;>
      cases hpi : e.partialInfo <;> simp [nightlyLocaleData, hpi]

/-- C8, witness: the field theorem at the concrete one-marker entries. -/
theorem locale_style_fields_witness :
    (create_locale_submitter entryRel "x" authEx cfgEx =
          .ok (.releaseV9 cfgEx.api_root authEx cfgEx.dummy
                ((entryRel.blob_suffix.getD "") ++ "x"), releaseLocaleData entryRel)
        ∧ "build_number" ∈ (releaseLocaleData entryRel).map Prod.fst
        ∧ "version" ∈ (releaseLocaleData entryRel).map Prod.fst
        ∧ "branch" ∉ (releaseLocaleData entryRel).map Prod.fst)
    ∧ (create_locale_submitter entryNight "x" authEx cfgEx =
          .ok (.nightlyV4 cfgEx.api_root authEx cfgEx.dummy
                entryNight.url_replacements, nightlyLocaleData entryNight)
        ∧ "branch" ∈ (nightlyLocaleData entryNight).map Prod.fst
        ∧ "build_number" ∉ (nightlyLocaleData entryNight).map Prod.fst
        ∧ "url_replacements" ∉ (nightlyLocaleData entryNight).map Prod.fst) :=
  ⟨(locale_style_fields entryRel "x" authEx cfgEx).1 rfl rfl,
   (locale_style_fields entryNight "x" authEx cfgEx).2 rfl rfl⟩

/-- C9: for a nightly-marker entry the submitter is constructed with no
suffix argument — the result is the same for any extra suffix and any
blob suffix of the entry — while for a release-marker entry the
submitter suffix is the blob suffix (defaulting to the empty string)
concatenated with the extra suffix. -/
theorem nightly_submitter_ignores_suffix (e : ManifestEntry)
    (extra extra2 : String) (bs2 : Option String) (auth : Auth)
    (cfg : Config) :
    (e.tc_release = false → e.tc_nightly = true →
      create_locale_submitter e extra auth cfg =
        .ok (.nightlyV4 cfg.api_root auth cfg.dummy e.url_replacements,
             nightlyLocaleData e))
    ∧ (e.tc_release = false → e.tc_nightly = true →
      create_locale_submitter { e with blob_suffix := bs2 } extra2 auth cfg =
        create_locale_submitter e extra auth cfg)
    ∧ (e.tc_release = true →
      create_locale_submitter e extra auth cfg =
        .ok (.releaseV9 cfg.api_root auth cfg.dummy
              ((e.blob_suffix.getD "") ++ extra), releaseLocaleData e)) := by
  refine ⟨?_, ?_, ?_⟩
  · intro h1 h2
    simp [create_locale_submitter, h1, h2]
  · intro h1 h2
    simp [create_locale_submitter, h1, h2, nightlyLocaleData]
  · intro h1
    simp [create_locale_submitter, h1]

/-- C9, witness: the suffix theorem at the concrete nightly entry. -/
theorem nightly_submitter_ignores_suffix_witness :
    (create_locale_submitter entryNight "x" authEx cfgEx =
      .ok (.nightlyV4 cfgEx.api_root authEx cfgEx.dummy
            entryNight.url_replacements, nightlyLocaleData entryNight))
    ∧ (create_locale_submitter
          { entryNight with blob_suffix := some "-esr" } "y" authEx cfgEx =
        create_locale_submitter entryNight "x" authEx cfgEx)
    ∧ (create_locale_submitter entryRel "x" authEx cfgEx =
      .ok (.releaseV9 cfgEx.api_root authEx cfgEx.dummy
            ((entryRel.blob_suffix.getD "") ++ "x"),
           releaseLocaleData entryRel)) := by
  have h := nightly_submitter_ignores_suffix entryNight "x" "y" (some "-esr")
    authEx cfgEx
  have hrel := nightly_submitter_ignores_suffix entryRel "x" "y" none
    authEx cfgEx
  exact ⟨h.1 rfl rfl, h.2.1 rfl rfl, hrel.2.2 rfl⟩

/-- C3, counterexample: the claim says the product name is used with the
first letter uppercased and the case of the remaining characters
unchanged.  Python `str.capitalize()` also lowercases the remaining
characters, so product `fireFOX` is sent as `Firefox`, not the
claim-worded `FireFOX`. -/
theorem capitalize_counterexample :
    ((submit_toplevel (fun _ => true) toplevelTaskOddCase cfgEx authEx).calls.map
        ToplevelCall.productName) = ["Firefox", "Firefox"]
    ∧ specCapitalize toplevelTaskOddCase.product = "FireFOX"
    ∧ ("Firefox" : String) ≠ "FireFOX" :=
  ⟨by decide, by decide, by decide⟩

/-- C3, amended: every request that carries a product name — top-level
creation, push, and scheduling — uses the Python-capitalized product
name: first letter uppercased, remaining characters lowercased. -/
theorem productName_pyCapitalize {α : Type} (ok ok2 : Nat → Bool)
    (pt : ToplevelPayload α) (ps : SchedulePayload) (cfg : Config)
    (auth : Auth) :
    (∀ c ∈ (submit_toplevel ok pt cfg auth).calls,
        c.productName = pyCapitalize pt.product)
    ∧ ∀ c ∈ (schedule ok2 ps cfg auth).calls,
        c.args.product = pyCapitalize ps.product := by
  constructor
  · intro c hc
    unfold submit_toplevel at hc
    cases hcp : computePartials pt.partial_versions with
    | error err =>
        rw [hcp] at hc
        simp at hc
    | ok partials =>
        rw [hcp] at hc
        rcases submit_toplevel_go_mem pt cfg auth partials ok
            (toplevelSuffixes pt) 0 [] c hc with h | h | h
        · cases h
        · obtain ⟨s, rfl⟩ := h
          rfl
        · subst h
          rfl
  · intro c hc
    simp only [schedule, List.mem_singleton] at hc
    subst hc
    rfl

/-- C3, amended, witness: the capitalization theorem applied to the
creation call of the mixed-case task and to a concrete scheduler call. -/
theorem productName_pyCapitalize_witness :
    (ToplevelCall.create
        ⟨"https://balrog.example/api", authEx, false, "", none, none⟩
        ⟨"100.0", "Firefox", "100.0", 1, ["release"], "a", "b", ["win64"],
         "sha512", [], true, none⟩ : ToplevelCall Unit).productName
      = pyCapitalize toplevelTaskOddCase.product := by
  exact (productName_pyCapitalize (fun _ => true) (fun _ => true)
    toplevelTaskOddCase schedPayloadEta cfgEx authEx).1 _ (by decide)

/-- C2: in top-level submission, when every creation call succeeds the
trace is exactly the per-suffix creation calls followed by one push call
(the push appears exactly once); when the creation call at position `i`
is the first to exhaust its retries, the trace holds the `i` earlier
creation calls (their effects are not undone) plus the failed attempt,
the flow aborts with the remote-failure error, and no push call ever
executes. -/
theorem submit_toplevel_push_discipline {α : Type} (ok : Nat → Bool)
    (p : ToplevelPayload α) (cfg : Config) (auth : Auth)
    (partials : List (String × String))
    (hp : computePartials p.partial_versions = .ok partials) :
    ((∀ i, i < (toplevelSuffixes p).length → ok i = true) →
      (submit_toplevel ok p cfg auth).calls =
        (toplevelSuffixes p).map (creatorCallFor p cfg auth partials)
          ++ [pusherCall p cfg auth]
      ∧ ((submit_toplevel ok p cfg auth).calls.filter
          (fun c => c.isPush)).length = 1)
    ∧ (∀ i, i < (toplevelSuffixes p).length →
        (∀ j, j < i → ok j = true) → ok i = false →
        (submit_toplevel ok p cfg auth).calls =
          ((toplevelSuffixes p).map
            (creatorCallFor p cfg auth partials)).take (i + 1)
        ∧ (submit_toplevel ok p cfg auth).error = some .remoteCallFailed
        ∧ ∀ c ∈ (submit_toplevel ok p cfg auth).calls, c.isPush = false) := by
  have hsub : submit_toplevel ok p cfg auth =
      submit_toplevel_go p cfg auth partials ok 0 (toplevelSuffixes p) [] := by
    unfold submit_toplevel
    rw [hp]
  constructor
  · intro hall
    have hall0 : ∀ i, i < (toplevelSuffixes p).length → ok (0 + i) = true := by
      intro i hi
      rw [Nat.zero_add]
      exact hall i hi
    rw [hsub,
      submit_toplevel_go_all_ok p cfg auth partials ok (toplevelSuffixes p)
        0 [] hall0]
    constructor
    · simp
    · simp only [List.nil_append, List.filter_append,
        filter_isPush_map_creator]
      simp [ToplevelCall.isPush, pusherCall]
  · intro i hi hj hf
    have hj0 : ∀ j, j < i → ok (0 + j) = true := by
      intro j hjlt
      rw [Nat.zero_add]
      exact hj j hjlt
    have hf0 : ok (0 + i) = false := by
      rw [Nat.zero_add]
      exact hf
    rw [hsub,
      submit_toplevel_go_first_fail p cfg auth partials ok
        (toplevelSuffixes p) 0 [] i hi hj0 hf0]
    refine ⟨?_, rfl, ?_⟩
    · simp [List.map_take]
    · intro c hc
      simp only [List.nil_append] at hc
      rcases List.mem_map.mp hc with ⟨s, hs, rfl⟩
      rfl

/-- C2, witness: the discipline theorem at a two-suffix task whose second
creation call fails — the trace holds the two creation attempts and no
push, and the flow reports the remote failure. -/
theorem submit_toplevel_push_discipline_witness :
    computePartials toplevelTaskTwoLines.partial_versions = .ok []
    ∧ (submit_toplevel okFailSecond toplevelTaskTwoLines cfgEx authEx).calls =
        ((toplevelSuffixes toplevelTaskTwoLines).map
          (creatorCallFor toplevelTaskTwoLines cfgEx authEx [])).take 2
    ∧ (submit_toplevel okFailSecond toplevelTaskTwoLines cfgEx authEx).error =
        some .remoteCallFailed := by
  have h := (submit_toplevel_push_discipline okFailSecond toplevelTaskTwoLines
      cfgEx authEx [] (by decide)).2 1 (by decide)
    (by
      intro j hj
      have hj0 : j = 0 := by omega
      subst hj0
      rfl)
    (by decide)
  exact ⟨by decide, h.1, h.2.1⟩

/-- C10: `update_config` (a pure function of its input here, matching the
deep copy in the source) returns the credentials of the selected server
entry together with a new config whose `api_root` comes from that entry,
whose `server_config` key is gone, and whose every other key is bound as
in the input config. -/
theorem update_config_frame (config : List (String × ConfigVal))
    (server : String) (sc : List (String × ServerEntry)) (entry : ServerEntry)
    (hsc : dictGet "server_config" config = some (.servers sc))
    (hentry : dictGet server sc = some entry) :
    ∃ cfg2, update_config config server =
        some ((entry.balrog_username, entry.balrog_password), cfg2)
      ∧ dictGet "api_root" cfg2 = some (.plain entry.api_root)
      ∧ dictGet "server_config" cfg2 = none
      ∧ ∀ k, k ≠ "api_root" → k ≠ "server_config" →
          dictGet k cfg2 = dictGet k config := by
  refine ⟨dictRemove "server_config"
      (dictInsert "api_root" (.plain entry.api_root) config), ?_, ?_, ?_, ?_⟩
  · unfold update_config
    simp only [hsc, hentry]
  · rw [dictGet_dictRemove_ne "server_config" "api_root" _ (by decide),
      dictGet_dictInsert_self]
  · exact dictGet_dictRemove_self "server_config" _
  · intro k hk1 hk2
    rw [dictGet_dictRemove_ne "server_config" k _ hk2,
      dictGet_dictInsert_ne "api_root" k _ _ hk1]

/-- C10, witness: the frame theorem at a concrete config with an
unrelated `verbose` key. -/
theorem update_config_frame_witness :
    dictGet "server_config" configEx10 = some (.servers serverConfigEx)
    ∧ dictGet "default" serverConfigEx = some serverEntryEx
    ∧ ∃ cfg2, update_config configEx10 "default" =
        some ((serverEntryEx.balrog_username,
               serverEntryEx.balrog_password), cfg2)
      ∧ dictGet "api_root" cfg2 = some (.plain serverEntryEx.api_root)
      ∧ dictGet "server_config" cfg2 = none
      ∧ ∀ k, k ≠ "api_root" → k ≠ "server_config" →
          dictGet k cfg2 = dictGet k configEx10 :=
  ⟨by decide, by decide,
   update_config_frame configEx10 "default" serverConfigEx serverEntryEx
     (by decide) (by decide)⟩

end Balrogscript
